import Mathlib

/-!
Verification of `backend/llm/qa_headless.py` (the `HeadlessQA` answer
orchestrator): a shallow embedding of its data model, prompt resolution,
buffered answer generation and streaming generation, with the external
collaborators (history store, brain lookup, prompt lookup, completion
provider) modelled as an explicit environment, and the collaborator calls
recorded in a trace.
-/

namespace QAHeadless

/-- `models.chats.ChatQuestion`: the question text. -/
structure ChatQuestion where
  question : String
deriving DecidableEq, Repr

/-- A stored prompt override (`models.prompt.Prompt`): only `title` and
`content` are read by `qa_headless.py`. -/
structure Prompt where
  title : String
  content : String
deriving DecidableEq, Repr

/-- A brain / persona: only `name` is read by `qa_headless.py`. -/
structure Brain where
  name : String
deriving DecidableEq, Repr

/-- Message roles of the OpenAI chat format. -/
inductive Role where
  | system
  | user
  | assistant
deriving DecidableEq, Repr

/-- One role-tagged chat message. -/
structure Message where
  role : Role
  content : String
deriving DecidableEq, Repr

/-- `langchain.callbacks.streaming_aiter.AsyncIteratorCallbackHandler`:
only its identity as the registered callback matters to the claims. -/
inductive CallbackHandler where
  | mk
deriving DecidableEq, Repr

/-- Python exceptions that the embedded code can surface. -/
inductive PyErr where
  | attributeError (name : String)
  | providerError (msg : String)
deriving DecidableEq, Repr

/-- The argument record of the `ChatOpenAI(...)` constructor call in
`HeadlessQA._create_llm`. -/
structure LLMConfig where
  temperature : Rat
  model : Option String
  streaming : Bool
  verbose : Bool
  callbacks : Option (List CallbackHandler)
  openai_api_key : Option String
deriving DecidableEq, Repr

/-- `models.databases.supabase.chats.CreateChatHistory`: the row handed to
`update_chat_history`. -/
structure CreateChatHistory where
  chat_id : String
  user_message : String
  assistant : String
  brain_id : Option String
  prompt_id : Option String
deriving DecidableEq, Repr

/-- One persisted chat-history row. -/
structure Record where
  message_id : Nat
  chat_id : String
  user_message : String
  assistant : String
  brain_id : Option String
  prompt_id : Option String
  message_time : Nat
deriving DecidableEq, Repr

/-- The chat-history store: an ordered list of persisted rows. -/
structure Store where
  records : List Record
deriving DecidableEq, Repr

/-- `repository.chat.GetChatHistoryOutput`: the response payload shape. -/
structure GetChatHistoryOutput where
  chat_id : String
  user_message : String
  assistant : String
  message_time : Nat
  prompt_title : Option String
  brain_name : Option String
  message_id : Nat
deriving DecidableEq, Repr

/-- One observable collaborator call made by `generate_answer` or
`generate_stream`, in execution order. -/
inductive Event where
  | getChatHistory (chat_id : Option String)
  | getBrain (brain_id : String)
  | providerPredict (cfg : LLMConfig) (messages : List Message)
  | providerStream (cfg : LLMConfig) (messages : List Message)
  | logError (msg : String)
  | createRecord (rec : CreateChatHistory)
  | updateMessage (message_id : Nat) (user_message : String) (assistant : String)
deriving DecidableEq, Repr

/-- The external collaborators: prompt lookup, brain lookup, and the
completion provider.  `stream` returns the tokens the provider pushes into
the callback before finishing, together with the exception (if any) that
its background call raises after those tokens. -/
structure Env where
  resolvePrompt : Option String → Option Prompt
  resolvePromptId : Option String → Option String
  brains : String → Brain
  predict : LLMConfig → List Message → Except PyErr String
  stream : LLMConfig → List Message → List String × Option String

/-- The module-level default system message of `qa_headless.py`, verbatim. -/
def SYSTEM_MESSAGE : String :=
  "Your name is a Digital Twin - . You're a helpful assistant. If you don't know the answer, just say that you don't know, don't try to make up an answer."

/-- The `StringModifier` helper class: holds a default prompt string. -/
structure StringModifier where
  default_prompt : String
deriving DecidableEq, Repr

/-- `StringModifier.add_string_at_index`: pure character splice
`base[:index] + additional_string + base[index:]`. -/
def StringModifier.add_string_at_index (m : StringModifier) (additional_string : String) (index : Nat) : String :=
  let first_part := m.default_prompt.take index
  let second_part := m.default_prompt.drop index
  first_part ++ additional_string ++ second_part

/-- `StringModifier.modify_default_prompt`: replaces the held prompt. -/
def StringModifier.modify_default_prompt (m : StringModifier) (new_prompt : String) : StringModifier :=
  { m with default_prompt := new_prompt }

/-- Modelled from the spec: the history store's
`getHistory(chatId) -> ordered sequence of {speaker, text}` (the
`repository.chat.get_chat_history` function is not under `src/`): the
chat's rows in insertion order. -/
def get_chat_history (store : Store) (chat_id : Option String) : List Record :=
  store.records.filter (fun r => some r.chat_id == chat_id)

/-- Modelled from the spec: the history formatter producing role-tagged
prior turns in chronological order (`repository.chat.format_chat_history`
is not under `src/`). -/
def format_chat_history (rows : List Record) : List Message :=
  rows.flatMap (fun r => [⟨Role.user, r.user_message⟩, ⟨Role.assistant, r.assistant⟩])

/-- Modelled from the spec: assemble "system/prompt message, prior turns,
new user question" (`repository.chat.format_history_to_openai_mesages` is
not under `src/`). -/
def format_history_to_openai_mesages (history : List Message) (prompt_content : String) (question : String) : List Message :=
  ⟨Role.system, prompt_content⟩ :: history ++ [⟨Role.user, question⟩]

/-- Modelled from the spec: the history store's
`createTurn(record) -> PersistedRecord{messageId, timestamp}`
(`repository.chat.update_chat_history` is not under `src/`): appends one
new row under a fresh message id and timestamp and returns it. -/
def update_chat_history (store : Store) (c : CreateChatHistory) : Store × Record :=
  let r : Record :=
    { message_id := store.records.length
      chat_id := c.chat_id
      user_message := c.user_message
      assistant := c.assistant
      brain_id := c.brain_id
      prompt_id := c.prompt_id
      message_time := store.records.length }
  (⟨store.records ++ [r]⟩, r)

/-- Modelled from the spec: the history store's
`updateTurn(messageId, userText, assistantText)`
(`repository.chat.update_message_by_id` is not under `src/`): rewrites the
row(s) with the given message id in place. -/
def update_message_by_id (store : Store) (message_id : Nat) (user_message : String) (assistant : String) : Store :=
  ⟨store.records.map (fun r =>
    if r.message_id == message_id then
      { r with user_message := user_message, assistant := assistant }
    else r)⟩

/-- The `HeadlessQA` pydantic model.  `brain_id` is NOT a declared field in
the source; the slot below records the value of the `brain_id` attribute
if it were present, and `HeadlessQA.ofData` (the `__init__` model) always
leaves it `none` because pydantic ignores undeclared fields. -/
structure HeadlessQA where
  model : Option String
  temperature : Rat
  max_tokens : Nat
  user_openai_api_key : Option String
  openai_api_key : Option String
  streaming : Bool
  chat_id : Option String
  callbacks : Option (List CallbackHandler)
  prompt_id : Option String
  brain_id : Option String
deriving DecidableEq, Repr

/-- `HeadlessQA._determine_api_key`: the user-supplied key wins when present. -/
def HeadlessQA._determine_api_key (openai_api_key : Option String) (user_openai_api_key : Option String) : Option String :=
  match user_openai_api_key with
  | some k => some k
  | none => openai_api_key

/-- `HeadlessQA._determine_streaming`: returns `streaming` as given. -/
def HeadlessQA._determine_streaming (_model : Option String) (streaming : Bool) : Bool :=
  streaming

/-- `HeadlessQA._determine_callback_array`: a single fresh
`AsyncIteratorCallbackHandler` when streaming, implicit `None` otherwise. -/
def HeadlessQA._determine_callback_array (streaming : Bool) : Option (List CallbackHandler) :=
  if streaming then some [CallbackHandler.mk] else none

/-- The keyword data a caller passes to `HeadlessQA(**data)`; `brain_id`
stands for an extra (undeclared) keyword, which pydantic v1 ignores. -/
structure InitData where
  model : Option String
  temperature : Rat
  max_tokens : Nat
  user_openai_api_key : Option String
  openai_api_key : Option String
  streaming : Bool
  chat_id : Option String
  prompt_id : Option String
  brain_id : Option String
deriving DecidableEq, Repr

/-- `HeadlessQA.__init__`: pydantic field assignment (extras ignored, so no
`brain_id` attribute is ever set), then the api-key / streaming / callback
resolution steps. -/
def HeadlessQA.ofData (d : InitData) : HeadlessQA :=
  let base : HeadlessQA :=
    { model := d.model
      temperature := d.temperature
      max_tokens := d.max_tokens
      user_openai_api_key := d.user_openai_api_key
      openai_api_key := d.openai_api_key
      streaming := d.streaming
      chat_id := d.chat_id
      callbacks := none
      prompt_id := d.prompt_id
      brain_id := none }
  let key := HeadlessQA._determine_api_key base.openai_api_key base.user_openai_api_key
  let str := HeadlessQA._determine_streaming base.model base.streaming
  { base with
      openai_api_key := key
      streaming := str
      callbacks := HeadlessQA._determine_callback_array str }

/-- Modelled from the spec: prompt override lookup
`resolvePrompt(promptId) -> Prompt|None`
(`llm/utils/get_prompt_to_use.py` is not under `src/`). -/
def get_prompt_to_use (env : Env) (_brain_id : Option String) (prompt_id : Option String) : Option Prompt :=
  env.resolvePrompt prompt_id

/-- Modelled from the spec: `resolvePromptId(promptId) -> UUID|None`
(`llm/utils/get_prompt_to_use_id.py` is not under `src/`). -/
def get_prompt_to_use_id (env : Env) (_brain_id : Option String) (prompt_id : Option String) : Option String :=
  env.resolvePromptId prompt_id

/-- The `prompt_to_use` property: `get_prompt_to_use(None, self.prompt_id)`. -/
def HeadlessQA.prompt_to_use (qa : HeadlessQA) (env : Env) : Option Prompt :=
  get_prompt_to_use env none qa.prompt_id

/-- The `prompt_to_use_id` property: `get_prompt_to_use_id(None, self.prompt_id)`. -/
def HeadlessQA.prompt_to_use_id (qa : HeadlessQA) (env : Env) : Option String :=
  get_prompt_to_use_id env none qa.prompt_id

/-- `HeadlessQA._create_llm`: the `ChatOpenAI` construction with the
arguments actually passed (note `verbose=True` and
`openai_api_key=self.openai_api_key`). -/
def HeadlessQA._create_llm (qa : HeadlessQA) (model : Option String) (temperature : Rat) (streaming : Bool) (callbacks : Option (List CallbackHandler)) : LLMConfig :=
  { temperature := temperature
    model := model
    streaming := streaming
    verbose := true
    callbacks := callbacks
    openai_api_key := qa.openai_api_key }

/-- The `prompt_content` expression of both methods: the override's content
when `prompt_to_use` is set, else the name splice at index 29. -/
def promptContent (qa : HeadlessQA) (env : Env) (bid : String) : String :=
  match qa.prompt_to_use env with
  | some p => p.content
  | none => StringModifier.add_string_at_index ⟨SYSTEM_MESSAGE⟩ (env.brains bid).name 29

/-- The `messages` value of both methods: formatted prior history of
`self.chat_id`, the resolved prompt content, and the new question. -/
def qa_messages (qa : HeadlessQA) (env : Env) (store : Store) (bid : String) (question : ChatQuestion) : List Message :=
  format_history_to_openai_mesages (format_chat_history (get_chat_history store qa.chat_id))
    (promptContent qa env bid) question.question

/-- The `_create_llm` call of `generate_answer`:
`self._create_llm(model=self.model, streaming=False, callbacks=self.callbacks)`;
`temperature` is not passed, so the signature default `0` applies. -/
def answer_cfg (qa : HeadlessQA) : LLMConfig :=
  qa._create_llm qa.model 0 false qa.callbacks

/-- The `_create_llm` call of `generate_stream`: by the time it runs,
`self.callbacks` has been reassigned to the one fresh handler; again
`temperature` is not passed, so the default `0` applies. -/
def stream_cfg (qa : HeadlessQA) : LLMConfig :=
  qa._create_llm qa.model 0 true (some [CallbackHandler.mk])

/-- `HeadlessQA.generate_answer`: returns the result (or the exception),
the store after the call, and the trace of collaborator calls.  Reading
`self.brain_id` on line 132 raises `AttributeError` whenever the attribute
is absent, i.e. on every object pydantic actually constructs. -/
def generate_answer (qa : HeadlessQA) (env : Env) (store : Store) (chat_id : String) (question : ChatQuestion) :
    Except PyErr GetChatHistoryOutput × Store × List Event :=
  match qa.brain_id with
  | none =>
      (Except.error (PyErr.attributeError "brain_id"), store, [Event.getChatHistory qa.chat_id])
  | some bid =>
      let cfg := answer_cfg qa
      let messages := qa_messages qa env store bid question
      match env.predict cfg messages with
      | Except.error e =>
          (Except.error e, store,
            [Event.getChatHistory qa.chat_id, Event.getBrain bid, Event.providerPredict cfg messages])
      | Except.ok answer =>
          let create : CreateChatHistory :=
            { chat_id := chat_id
              user_message := question.question
              assistant := answer
              brain_id := none
              prompt_id := qa.prompt_to_use_id env }
          let res := update_chat_history store create
          let out : GetChatHistoryOutput :=
            { chat_id := chat_id
              user_message := question.question
              assistant := answer
              message_time := res.2.message_time
              prompt_title := (qa.prompt_to_use env).map Prompt.title
              brain_name := none
              message_id := res.2.message_id }
          (Except.ok out, res.1,
            [Event.getChatHistory qa.chat_id, Event.getBrain bid, Event.providerPredict cfg messages,
             Event.createRecord create])

/-- What one run of `generate_stream` produces: the row created up front,
the store right after that creation (before any frame is yielded), the
yielded frames in order, the store after the finalizing update, and
whether the done event was set. -/
structure StreamResult where
  created : Record
  storeAfterCreate : Store
  frames : List GetChatHistoryOutput
  finalStore : Store
  doneSet : Bool
deriving DecidableEq, Repr

/-- `HeadlessQA.generate_stream`: registers a fresh callback as the sole
one, reads history and brain (the `self.brain_id` read raises when absent),
launches the provider call wrapped in `wrap_done` (which logs and swallows
its exception and always sets the done event), creates the pending row with
empty assistant text, yields one frame per token with `assistant` set to
that single token, and after the stream is drained and the task awaited
updates the same row with the concatenation of all tokens. -/
def generate_stream (qa : HeadlessQA) (env : Env) (store : Store) (chat_id : String) (question : ChatQuestion) :
    Except PyErr StreamResult × List Event :=
  match qa.brain_id with
  | none =>
      (Except.error (PyErr.attributeError "brain_id"), [Event.getChatHistory qa.chat_id])
  | some bid =>
      let cfg := stream_cfg qa
      let messages := qa_messages qa env store bid question
      let run := env.stream cfg messages
      let tokens := run.1
      let logEvents : List Event :=
        match run.2 with
        | some e => [Event.logError ("Caught exception: " ++ e)]
        | none => []
      let create : CreateChatHistory :=
        { chat_id := chat_id
          user_message := question.question
          assistant := ""
          brain_id := none
          prompt_id := qa.prompt_to_use_id env }
      let res := update_chat_history store create
      let payload : GetChatHistoryOutput :=
        { chat_id := chat_id
          message_id := res.2.message_id
          message_time := res.2.message_time
          user_message := question.question
          assistant := ""
          prompt_title := (qa.prompt_to_use env).map Prompt.title
          brain_name := none }
      let frames := tokens.map (fun tok => { payload with assistant := tok })
      let assistant := String.join tokens
      let finalStore := update_message_by_id res.1 res.2.message_id question.question assistant
      (Except.ok
        { created := res.2
          storeAfterCreate := res.1
          frames := frames
          finalStore := finalStore
          doneSet := true },
       [Event.getChatHistory qa.chat_id, Event.getBrain bid, Event.providerStream cfg messages]
         ++ logEvents
         ++ [Event.createRecord create,
             Event.updateMessage res.2.message_id question.question assistant])

/-- The message lists handed to the completion provider in a trace. -/
def providerMessageLists (tr : List Event) : List (List Message) :=
  tr.filterMap (fun e =>
    match e with
    | Event.providerPredict _ msgs => some msgs
    | Event.providerStream _ msgs => some msgs
    | _ => none)

/-- The provider-call configurations in a trace. -/
def providerConfigs (tr : List Event) : List LLMConfig :=
  tr.filterMap (fun e =>
    match e with
    | Event.providerPredict cfg _ => some cfg
    | Event.providerStream cfg _ => some cfg
    | _ => none)

/-- The rows handed to `update_chat_history` in a trace. -/
def createdRecords (tr : List Event) : List CreateChatHistory :=
  tr.filterMap (fun e =>
    match e with
    | Event.createRecord c => some c
    | _ => none)

/-- Whether a trace contains a log of a swallowed exception. -/
def loggedErrors (tr : List Event) : List String :=
  tr.filterMap (fun e =>
    match e with
    | Event.logError m => some m
    | _ => none)

/-! ## Characterization lemmas -/

/-- `generate_answer` on a successful provider call, fully evaluated. -/
theorem generate_answer_ok (qa : HeadlessQA) (env : Env) (store : Store)
    (chat_id : String) (question : ChatQuestion) (bid : String) (a : String)
    (hb : qa.brain_id = some bid)
    (ha : env.predict (answer_cfg qa) (qa_messages qa env store bid question) = Except.ok a) :
    generate_answer qa env store chat_id question =
      (Except.ok
        { chat_id := chat_id
          user_message := question.question
          assistant := a
          message_time := store.records.length
          prompt_title := (qa.prompt_to_use env).map Prompt.title
          brain_name := none
          message_id := store.records.length },
       ⟨store.records ++
          [⟨store.records.length, chat_id, question.question, a, none,
            qa.prompt_to_use_id env, store.records.length⟩]⟩,
       [Event.getChatHistory qa.chat_id, Event.getBrain bid,
        Event.providerPredict (answer_cfg qa) (qa_messages qa env store bid question),
        Event.createRecord ⟨chat_id, question.question, a, none, qa.prompt_to_use_id env⟩]) := by
  simp [generate_answer, hb, ha, update_chat_history]

/-- `generate_answer` on a failing provider call, fully evaluated. -/
theorem generate_answer_err (qa : HeadlessQA) (env : Env) (store : Store)
    (chat_id : String) (question : ChatQuestion) (bid : String) (e : PyErr)
    (hb : qa.brain_id = some bid)
    (ha : env.predict (answer_cfg qa) (qa_messages qa env store bid question) = Except.error e) :
    generate_answer qa env store chat_id question =
      (Except.error e, store,
       [Event.getChatHistory qa.chat_id, Event.getBrain bid,
        Event.providerPredict (answer_cfg qa) (qa_messages qa env store bid question)]) := by
  simp [generate_answer, hb, ha]

/-- `generate_stream` when the `brain_id` attribute read succeeds, fully
evaluated. -/
theorem generate_stream_eq (qa : HeadlessQA) (env : Env) (store : Store)
    (chat_id : String) (question : ChatQuestion) (bid : String)
    (hb : qa.brain_id = some bid) :
    generate_stream qa env store chat_id question =
      (Except.ok
        { created := ⟨store.records.length, chat_id, question.question, "", none,
            qa.prompt_to_use_id env, store.records.length⟩
          storeAfterCreate := ⟨store.records ++
            [⟨store.records.length, chat_id, question.question, "", none,
              qa.prompt_to_use_id env, store.records.length⟩]⟩
          frames := (env.stream (stream_cfg qa) (qa_messages qa env store bid question)).1.map
            (fun tok => ⟨chat_id, question.question, tok, store.records.length,
              (qa.prompt_to_use env).map Prompt.title, none, store.records.length⟩)
          finalStore := update_message_by_id
            ⟨store.records ++
              [⟨store.records.length, chat_id, question.question, "", none,
                qa.prompt_to_use_id env, store.records.length⟩]⟩
            store.records.length question.question
            (String.join (env.stream (stream_cfg qa) (qa_messages qa env store bid question)).1)
          doneSet := true },
       [Event.getChatHistory qa.chat_id, Event.getBrain bid,
        Event.providerStream (stream_cfg qa) (qa_messages qa env store bid question)]
         ++ (match (env.stream (stream_cfg qa) (qa_messages qa env store bid question)).2 with
             | some e => [Event.logError ("Caught exception: " ++ e)]
             | none => [])
         ++ [Event.createRecord ⟨chat_id, question.question, "", none, qa.prompt_to_use_id env⟩,
             Event.updateMessage store.records.length question.question
               (String.join (env.stream (stream_cfg qa) (qa_messages qa env store bid question)).1)]) := by
  simp [generate_stream, hb, update_chat_history]

/-- Every row carrying the updated message id holds the new assistant text
after `update_message_by_id`. -/
theorem update_message_by_id_assistant (store : Store) (mid : Nat) (u a : String) :
    ∀ r ∈ (update_message_by_id store mid u a).records, r.message_id = mid → r.assistant = a := by
  intro r hr hm
  simp only [update_message_by_id, List.mem_map] at hr
  obtain ⟨r0, _, rfl⟩ := hr
  by_cases h : r0.message_id = mid
  · simp [h]
  · simp [h] at hm

/-- A row with the updated message id stays in the store, rewritten in
place, after `update_message_by_id`. -/
theorem update_message_by_id_mem (store : Store) (mid : Nat) (u a : String) (r : Record)
    (hr : r ∈ store.records) (hm : r.message_id = mid) :
    ({r with user_message := u, assistant := a} : Record) ∈ (update_message_by_id store mid u a).records := by
  simp only [update_message_by_id, List.mem_map]
  exact ⟨r, hr, by simp [hm]⟩

/-! ## Concrete fixtures for witnesses and counterexamples -/

/-- The empty chat-history store. -/
def store0 : Store := ⟨[]⟩

/-- A sample question. -/
def q0 : ChatQuestion := ⟨"What is 2+2?"⟩

/-- An orchestrator state whose `brain_id` attribute read succeeds. -/
def qa0 : HeadlessQA :=
  ⟨some "gpt-3.5-turbo", 0, 256, none, some "sk-key", false, some "chat-1", none, none, some "b1"⟩

/-- Identical to `qa0` except for the configured temperature. -/
def qaT1 : HeadlessQA :=
  ⟨some "gpt-3.5-turbo", 1, 256, none, some "sk-key", false, some "chat-1", none, none, some "b1"⟩

/-- An environment with no prompt override and brain name "Ada". -/
def envNoOv : Env :=
  ⟨fun _ => none, fun _ => none, fun _ => ⟨"Ada"⟩,
   fun _ _ => Except.ok "four", fun _ _ => (["fo", "ur"], none)⟩

/-- An environment with a prompt override configured. -/
def envOv : Env :=
  ⟨fun _ => some ⟨"T", "OVR"⟩, fun _ => some "pid-1", fun _ => ⟨"Ada"⟩,
   fun _ _ => Except.ok "four", fun _ _ => ([], some "boom")⟩

/-- An environment whose completion provider fails every call. -/
def envErr : Env :=
  ⟨fun _ => none, fun _ => none, fun _ => ⟨"Ada"⟩,
   fun _ _ => Except.error (PyErr.providerError "api down"), fun _ _ => ([], some "api down")⟩

/-! ## Claims -/

set_option maxRecDepth 8192 in
/-- Claim C1: prompt resolution.  For every call to `generate_answer` or
`generate_stream` (whose `brain_id` attribute read succeeds), if a prompt
override is configured the system prompt content sent to the provider
equals the override's content verbatim; otherwise it equals the fixed
default system message with the persona's display name spliced in at
character offset 29, computed as `base[:29] + name + base[29:]`, so that
name "Ada" on the default base yields
"Your name is a Digital Twin -Ada . You're..." byte-for-byte. -/
theorem C1_prompt_resolution (qa : HeadlessQA) (env : Env) (store : Store)
    (chat_id : String) (question : ChatQuestion) (bid : String)
    (hb : qa.brain_id = some bid) :
    (providerMessageLists (generate_answer qa env store chat_id question).2.2).map List.head? =
      [some ⟨Role.system, promptContent qa env bid⟩]
    ∧ (providerMessageLists (generate_stream qa env store chat_id question).2).map List.head? =
      [some ⟨Role.system, promptContent qa env bid⟩]
    ∧ (∀ p, qa.prompt_to_use env = some p → promptContent qa env bid = p.content)
    ∧ (qa.prompt_to_use env = none →
        promptContent qa env bid =
          StringModifier.add_string_at_index ⟨SYSTEM_MESSAGE⟩ (env.brains bid).name 29)
    ∧ StringModifier.add_string_at_index ⟨SYSTEM_MESSAGE⟩ "Ada" 29 =
        "Your name is a Digital Twin -Ada . You're a helpful assistant. If you don't know the answer, just say that you don't know, don't try to make up an answer." := by
  refine ⟨?_, ?_, ?_, ?_, ?_⟩
  · cases ha : env.predict (answer_cfg qa) (qa_messages qa env store bid question) with
    | error e =>
        rw [generate_answer_err qa env store chat_id question bid e hb ha]
        simp [providerMessageLists, qa_messages, format_history_to_openai_mesages]
    | ok a =>
        rw [generate_answer_ok qa env store chat_id question bid a hb ha]
        simp [providerMessageLists, qa_messages, format_history_to_openai_mesages]
  · rw [generate_stream_eq qa env store chat_id question bid hb]
    cases hs : (env.stream (stream_cfg qa) (qa_messages qa env store bid question)).2 <;>
      simp [providerMessageLists, qa_messages, format_history_to_openai_mesages, hs]
  · intro p hp
    simp [promptContent, hp]
  · intro hp
    simp [promptContent, hp]
  · rfl

/-- Witness for C1 at a concrete input with no override and brain "Ada". -/
theorem C1_prompt_resolution_witness :
    (providerMessageLists (generate_answer qa0 envNoOv store0 "chat-1" q0).2.2).map List.head? =
      [some ⟨Role.system, promptContent qa0 envNoOv "b1"⟩]
    ∧ (providerMessageLists (generate_stream qa0 envNoOv store0 "chat-1" q0).2).map List.head? =
      [some ⟨Role.system, promptContent qa0 envNoOv "b1"⟩]
    ∧ (∀ p, qa0.prompt_to_use envNoOv = some p → promptContent qa0 envNoOv "b1" = p.content)
    ∧ (qa0.prompt_to_use envNoOv = none →
        promptContent qa0 envNoOv "b1" =
          StringModifier.add_string_at_index ⟨SYSTEM_MESSAGE⟩ (envNoOv.brains "b1").name 29)
    ∧ StringModifier.add_string_at_index ⟨SYSTEM_MESSAGE⟩ "Ada" 29 =
        "Your name is a Digital Twin -Ada . You're a helpful assistant. If you don't know the answer, just say that you don't know, don't try to make up an answer." :=
  C1_prompt_resolution qa0 envNoOv store0 "chat-1" q0 "b1" rfl

/-- Claim C2: for every call to `generate_answer` and every call to
`generate_stream` on an object constructed by `HeadlessQA.__init__`
(modelled by `HeadlessQA.ofData`), the `brain_id` attribute is absent
(it is not a declared field of the pydantic model and extra init data is
ignored), so the call raises `AttributeError` before the completion
provider is ever invoked, regardless of whether a prompt override is
configured. -/
theorem C2_brain_id_attribute_error (d : InitData) (env : Env) (store : Store)
    (chat_id : String) (question : ChatQuestion) :
    (HeadlessQA.ofData d).brain_id = none
    ∧ generate_answer (HeadlessQA.ofData d) env store chat_id question =
        (Except.error (PyErr.attributeError "brain_id"), store, [Event.getChatHistory d.chat_id])
    ∧ generate_stream (HeadlessQA.ofData d) env store chat_id question =
        (Except.error (PyErr.attributeError "brain_id"), [Event.getChatHistory d.chat_id])
    ∧ providerConfigs (generate_answer (HeadlessQA.ofData d) env store chat_id question).2.2 = []
    ∧ providerConfigs (generate_stream (HeadlessQA.ofData d) env store chat_id question).2 = [] := by
  refine ⟨rfl, ?_, ?_, ?_, ?_⟩ <;>
    simp [generate_answer, generate_stream, HeadlessQA.ofData, providerConfigs]

/-- Claim C3: streaming round-trip.  For every run of `generate_stream`,
the concatenation (in yield order) of the assistant fields of all yielded
frames equals the assistant text written to the chat-history record by the
finalizing update: the final store is exactly the in-place update of the
created record's message id with that concatenation, every row carrying
that id holds that text, and such a row exists. -/
theorem C3_stream_concat_roundtrip (qa : HeadlessQA) (env : Env) (store : Store)
    (chat_id : String) (question : ChatQuestion) (bid : String) (sr : StreamResult)
    (hb : qa.brain_id = some bid)
    (hr : (generate_stream qa env store chat_id question).1 = Except.ok sr) :
    sr.finalStore = update_message_by_id sr.storeAfterCreate sr.created.message_id
        question.question (String.join (sr.frames.map GetChatHistoryOutput.assistant))
    ∧ (∀ r ∈ sr.finalStore.records, r.message_id = sr.created.message_id →
        r.assistant = String.join (sr.frames.map GetChatHistoryOutput.assistant))
    ∧ (∃ r ∈ sr.finalStore.records, r.message_id = sr.created.message_id) := by
  rw [generate_stream_eq qa env store chat_id question bid hb] at hr
  simp only [Except.ok.injEq] at hr
  subst hr
  have hmap : ∀ toks : List String,
      (toks.map (fun tok => (⟨chat_id, question.question, tok, store.records.length,
        (qa.prompt_to_use env).map Prompt.title, none, store.records.length⟩ :
          GetChatHistoryOutput))).map GetChatHistoryOutput.assistant = toks := by
    intro toks
    induction toks with
    | nil => rfl
    | cons t ts ih => simp only [List.map_cons, ih]
  refine ⟨?_, ?_, ?_⟩
  · simp only [hmap]
  · simp only [hmap]
    exact update_message_by_id_assistant _ _ _ _
  · refine ⟨_, update_message_by_id_mem _ _ question.question _ _ (List.mem_append_right _ (List.mem_singleton.mpr rfl)) rfl, rfl⟩

/-- Witness for C3 at a concrete input: two tokens "fo", "ur". -/
theorem C3_stream_concat_roundtrip_witness :
    ((Except.ok ⟨⟨0, "chat-1", "What is 2+2?", "", none, none, 0⟩,
        ⟨[⟨0, "chat-1", "What is 2+2?", "", none, none, 0⟩]⟩,
        [⟨"chat-1", "What is 2+2?", "fo", 0, none, none, 0⟩,
         ⟨"chat-1", "What is 2+2?", "ur", 0, none, none, 0⟩],
        ⟨[⟨0, "chat-1", "What is 2+2?", "four", none, none, 0⟩]⟩, true⟩ :
          Except PyErr StreamResult) = (generate_stream qa0 envNoOv store0 "chat-1" q0).1)
    ∧ ((⟨[⟨0, "chat-1", "What is 2+2?", "four", none, none, 0⟩]⟩ : Store) =
        update_message_by_id ⟨[⟨0, "chat-1", "What is 2+2?", "", none, none, 0⟩]⟩ 0
          "What is 2+2?" (String.join ["fo", "ur"])) := by
  have h := C3_stream_concat_roundtrip qa0 envNoOv store0 "chat-1" q0 "b1"
    ⟨⟨0, "chat-1", "What is 2+2?", "", none, none, 0⟩,
     ⟨[⟨0, "chat-1", "What is 2+2?", "", none, none, 0⟩]⟩,
     [⟨"chat-1", "What is 2+2?", "fo", 0, none, none, 0⟩,
      ⟨"chat-1", "What is 2+2?", "ur", 0, none, none, 0⟩],
     ⟨[⟨0, "chat-1", "What is 2+2?", "four", none, none, 0⟩]⟩, true⟩ rfl (by rfl)
  exact ⟨by rfl, by simpa using h.1⟩

/-- Claim C4: two-phase record invariant.  Each run of `generate_stream`
creates exactly one chat-history record (the trace hands exactly one row to
the store, with empty assistant text); before the first frame is yielded
the created record already sits in the store with empty assistant text; and
the final store is the in-place update (same message id) of that one
record to the full concatenated assistant text of the yielded frames,
performed once, after the frame sequence is exhausted and the background
task is done, leaving the number of rows unchanged. -/
theorem C4_two_phase_record (qa : HeadlessQA) (env : Env) (store : Store)
    (chat_id : String) (question : ChatQuestion) (bid : String) (sr : StreamResult)
    (hb : qa.brain_id = some bid)
    (hr : (generate_stream qa env store chat_id question).1 = Except.ok sr) :
    createdRecords (generate_stream qa env store chat_id question).2 =
      [⟨chat_id, question.question, "", none, qa.prompt_to_use_id env⟩]
    ∧ sr.storeAfterCreate.records = store.records ++ [sr.created]
    ∧ sr.created.assistant = ""
    ∧ sr.created.chat_id = chat_id
    ∧ sr.created.user_message = question.question
    ∧ sr.finalStore = update_message_by_id sr.storeAfterCreate sr.created.message_id
        question.question (String.join (sr.frames.map GetChatHistoryOutput.assistant))
    ∧ sr.finalStore.records.length = sr.storeAfterCreate.records.length
    ∧ sr.doneSet = true := by
  rw [generate_stream_eq qa env store chat_id question bid hb] at hr
  simp only [Except.ok.injEq] at hr
  subst hr
  have hmap : ∀ toks : List String,
      (toks.map (fun tok => (⟨chat_id, question.question, tok, store.records.length,
        (qa.prompt_to_use env).map Prompt.title, none, store.records.length⟩ :
          GetChatHistoryOutput))).map GetChatHistoryOutput.assistant = toks := by
    intro toks
    induction toks with
    | nil => rfl
    | cons t ts ih => simp only [List.map_cons, ih]
  refine ⟨?_, rfl, rfl, rfl, rfl, ?_, ?_, rfl⟩
  · rw [generate_stream_eq qa env store chat_id question bid hb]
    cases hs : (env.stream (stream_cfg qa) (qa_messages qa env store bid question)).2 <;>
      simp [createdRecords, hs]
  · simp only [hmap]
  · simp [update_message_by_id]

/-- The `StreamResult` of `generate_stream qa0 envNoOv store0 "chat-1" q0`. -/
def sr4 : StreamResult :=
  ⟨⟨0, "chat-1", "What is 2+2?", "", none, none, 0⟩,
   ⟨[⟨0, "chat-1", "What is 2+2?", "", none, none, 0⟩]⟩,
   [⟨"chat-1", "What is 2+2?", "fo", 0, none, none, 0⟩,
    ⟨"chat-1", "What is 2+2?", "ur", 0, none, none, 0⟩],
   ⟨[⟨0, "chat-1", "What is 2+2?", "four", none, none, 0⟩]⟩, true⟩

/-- Witness for C4 at a concrete input. -/
theorem C4_two_phase_record_witness :
    createdRecords (generate_stream qa0 envNoOv store0 "chat-1" q0).2 =
      [⟨"chat-1", q0.question, "", none, qa0.prompt_to_use_id envNoOv⟩]
    ∧ sr4.storeAfterCreate.records = store0.records ++ [sr4.created]
    ∧ sr4.created.assistant = ""
    ∧ sr4.created.chat_id = "chat-1"
    ∧ sr4.created.user_message = q0.question
    ∧ sr4.finalStore = update_message_by_id sr4.storeAfterCreate sr4.created.message_id
        q0.question (String.join (sr4.frames.map GetChatHistoryOutput.assistant))
    ∧ sr4.finalStore.records.length = sr4.storeAfterCreate.records.length
    ∧ sr4.doneSet = true :=
  C4_two_phase_record qa0 envNoOv store0 "chat-1" q0 "b1" sr4 rfl (by rfl)

/-- Claim C5: streaming error isolation.  When the provider call raises
inside the background task, `generate_stream` still returns normally (no
error is surfaced to the frame consumer), the caught exception is logged,
the done event is set so the frame sequence terminates after exactly the
tokens accumulated before the failure, and the finalizing update still runs
with the concatenation of those tokens (possibly the empty string). -/
theorem C5_stream_error_isolation (qa : HeadlessQA) (env : Env) (store : Store)
    (chat_id : String) (question : ChatQuestion) (bid : String) (e : String)
    (hb : qa.brain_id = some bid)
    (hs : (env.stream (stream_cfg qa) (qa_messages qa env store bid question)).2 = some e) :
    (∃ sr, (generate_stream qa env store chat_id question).1 = Except.ok sr
      ∧ sr.doneSet = true
      ∧ sr.frames.length =
          (env.stream (stream_cfg qa) (qa_messages qa env store bid question)).1.length
      ∧ sr.finalStore = update_message_by_id sr.storeAfterCreate sr.created.message_id
          question.question
          (String.join (env.stream (stream_cfg qa) (qa_messages qa env store bid question)).1))
    ∧ loggedErrors (generate_stream qa env store chat_id question).2 =
        ["Caught exception: " ++ e] := by
  rw [generate_stream_eq qa env store chat_id question bid hb]
  constructor
  · exact ⟨_, rfl, rfl, by simp, rfl⟩
  · simp [loggedErrors, hs]

/-- Witness for C5: the provider fails before emitting any token, the
stream yields no frame, and finalization runs with the empty string. -/
theorem C5_stream_error_isolation_witness :
    ((∃ sr, (generate_stream qa0 envErr store0 "chat-1" q0).1 = Except.ok sr
      ∧ sr.doneSet = true
      ∧ sr.frames.length =
          (envErr.stream (stream_cfg qa0) (qa_messages qa0 envErr store0 "b1" q0)).1.length
      ∧ sr.finalStore = update_message_by_id sr.storeAfterCreate sr.created.message_id
          q0.question
          (String.join (envErr.stream (stream_cfg qa0) (qa_messages qa0 envErr store0 "b1" q0)).1))
    ∧ loggedErrors (generate_stream qa0 envErr store0 "chat-1" q0).2 =
        ["Caught exception: " ++ "api down"]) :=
  C5_stream_error_isolation qa0 envErr store0 "chat-1" q0 "b1" "api down" rfl rfl

/-- Claim C6: buffered-mode atomicity.  When the completion provider fails
inside `generate_answer`, the error propagates unchanged to the caller,
the provider was invoked exactly once (no retry), and the history store is
untouched: no record is created and the returned store equals the input
store. -/
theorem C6_buffered_atomicity (qa : HeadlessQA) (env : Env) (store : Store)
    (chat_id : String) (question : ChatQuestion) (bid : String) (e : PyErr)
    (hb : qa.brain_id = some bid)
    (ha : env.predict (answer_cfg qa) (qa_messages qa env store bid question) = Except.error e) :
    (generate_answer qa env store chat_id question).1 = Except.error e
    ∧ (generate_answer qa env store chat_id question).2.1 = store
    ∧ createdRecords (generate_answer qa env store chat_id question).2.2 = []
    ∧ providerConfigs (generate_answer qa env store chat_id question).2.2 = [answer_cfg qa] := by
  have h := generate_answer_err qa env store chat_id question bid e hb ha
  rw [h]
  exact ⟨rfl, rfl, rfl, rfl⟩

/-- Witness for C6: a provider failure at a concrete input. -/
theorem C6_buffered_atomicity_witness :
    (generate_answer qa0 envErr store0 "chat-1" q0).1 = Except.error (PyErr.providerError "api down")
    ∧ (generate_answer qa0 envErr store0 "chat-1" q0).2.1 = store0
    ∧ createdRecords (generate_answer qa0 envErr store0 "chat-1" q0).2.2 = []
    ∧ providerConfigs (generate_answer qa0 envErr store0 "chat-1" q0).2.2 = [answer_cfg qa0] :=
  C6_buffered_atomicity qa0 envErr store0 "chat-1" q0 "b1" (PyErr.providerError "api down") rfl rfl

/-- Counterexample to C7: a concrete call with a prompt override configured
in which the brain lookup is nonetheless invoked — the source calls
`get_brain_by_id(self.brain_id)` unconditionally, before the override
check, in both methods. -/
theorem C7_counterexample :
    qa0.prompt_to_use envOv = some ⟨"T", "OVR"⟩
    ∧ Event.getBrain "b1" ∈ (generate_answer qa0 envOv store0 "chat-1" q0).2.2
    ∧ Event.getBrain "b1" ∈ (generate_stream qa0 envOv store0 "chat-1" q0).2 := by
  refine ⟨rfl, ?_, ?_⟩
  · rw [generate_answer_ok qa0 envOv store0 "chat-1" q0 "b1" "four" rfl rfl]
    simp
  · rw [generate_stream_eq qa0 envOv store0 "chat-1" q0 "b1" rfl]
    simp

/-- Claim C7 as amended: the brain lookup is invoked on every call of
either method (whenever the `brain_id` attribute read succeeds), even when
a prompt override is configured; only the persona's name is unused in that
case — with an override configured, the resolved system prompt equals the
override's content and ignores the fetched brain. -/
theorem C7_amended_unconditional_brain_lookup (qa : HeadlessQA) (env : Env) (store : Store)
    (chat_id : String) (question : ChatQuestion) (bid : String)
    (hb : qa.brain_id = some bid) :
    Event.getBrain bid ∈ (generate_answer qa env store chat_id question).2.2
    ∧ Event.getBrain bid ∈ (generate_stream qa env store chat_id question).2
    ∧ (∀ p, qa.prompt_to_use env = some p → promptContent qa env bid = p.content) := by
  refine ⟨?_, ?_, ?_⟩
  · cases ha : env.predict (answer_cfg qa) (qa_messages qa env store bid question) with
    | error e =>
        rw [generate_answer_err qa env store chat_id question bid e hb ha]
        simp
    | ok a =>
        rw [generate_answer_ok qa env store chat_id question bid a hb ha]
        simp
  · rw [generate_stream_eq qa env store chat_id question bid hb]
    simp
  · intro p hp
    simp [promptContent, hp]

/-- Witness for the amended C7 at a concrete input with an override. -/
theorem C7_amended_unconditional_brain_lookup_witness :
    Event.getBrain "b1" ∈ (generate_answer qa0 envOv store0 "chat-1" q0).2.2
    ∧ Event.getBrain "b1" ∈ (generate_stream qa0 envOv store0 "chat-1" q0).2
    ∧ (∀ p, qa0.prompt_to_use envOv = some p → promptContent qa0 envOv "b1" = p.content) :=
  C7_amended_unconditional_brain_lookup qa0 envOv store0 "chat-1" q0 "b1" rfl

/-- Counterexample to C8: `generate_answer` calls `_create_llm` without
passing `self.temperature`, so the provider always receives the signature
default `0`.  Two orchestrators differing only in temperature (`qa0` with
0, `qaT1` with 1) hand the provider identical configurations, and the
provider temperature differs from the configured one. -/
theorem C8_counterexample :
    qaT1.temperature = 1
    ∧ qa0 = { qaT1 with temperature := 0 }
    ∧ providerConfigs (generate_answer qaT1 envNoOv store0 "chat-1" q0).2.2 = [answer_cfg qaT1]
    ∧ (answer_cfg qaT1).temperature = 0
    ∧ providerConfigs (generate_answer qaT1 envNoOv store0 "chat-1" q0).2.2 =
        providerConfigs (generate_answer qa0 envNoOv store0 "chat-1" q0).2.2
    ∧ (answer_cfg qaT1).temperature ≠ qaT1.temperature := by
  refine ⟨rfl, rfl, ?_, rfl, ?_, by decide⟩
  · rw [generate_answer_ok qaT1 envNoOv store0 "chat-1" q0 "b1" "four" rfl rfl]
    rfl
  · rw [generate_answer_ok qaT1 envNoOv store0 "chat-1" q0 "b1" "four" rfl rfl,
      generate_answer_ok qa0 envNoOv store0 "chat-1" q0 "b1" "four" rfl rfl]
    rfl

/-- Claim C8 as amended: for every call of `generate_answer` (whose
`brain_id` read succeeds), the completion provider is invoked exactly once,
non-streaming, with the orchestrator's model and resolved api key — but
with temperature `0` (the `_create_llm` signature default), regardless of
the orchestrator's configured temperature. -/
theorem C8_amended_temperature_default (qa : HeadlessQA) (env : Env) (store : Store)
    (chat_id : String) (question : ChatQuestion) (bid : String)
    (hb : qa.brain_id = some bid) :
    providerConfigs (generate_answer qa env store chat_id question).2.2 = [answer_cfg qa]
    ∧ (answer_cfg qa).streaming = false
    ∧ (answer_cfg qa).temperature = 0
    ∧ (answer_cfg qa).model = qa.model
    ∧ (answer_cfg qa).openai_api_key = qa.openai_api_key := by
  refine ⟨?_, rfl, rfl, rfl, rfl⟩
  cases ha : env.predict (answer_cfg qa) (qa_messages qa env store bid question) with
  | error e =>
      rw [generate_answer_err qa env store chat_id question bid e hb ha]
      rfl
  | ok a =>
      rw [generate_answer_ok qa env store chat_id question bid a hb ha]
      rfl

/-- Witness for the amended C8 at a concrete input. -/
theorem C8_amended_temperature_default_witness :
    providerConfigs (generate_answer qa0 envNoOv store0 "chat-1" q0).2.2 = [answer_cfg qa0]
    ∧ (answer_cfg qa0).streaming = false
    ∧ (answer_cfg qa0).temperature = 0
    ∧ (answer_cfg qa0).model = qa0.model
    ∧ (answer_cfg qa0).openai_api_key = qa0.openai_api_key :=
  C8_amended_temperature_default qa0 envNoOv store0 "chat-1" q0 "b1" rfl

/-- Claim C9: for every chat id and question, a successful call to
`generate_answer` appends exactly one new history record, whose
user message equals the input question text; two successive identical
calls append two independent records with distinct message ids (no
deduplication). -/
theorem C9_one_record_per_call (qa : HeadlessQA) (env : Env) (store : Store)
    (chat_id : String) (question : ChatQuestion) (bid : String)
    (hb : qa.brain_id = some bid)
    (hp : ∀ cfg msgs, ∃ a, env.predict cfg msgs = Except.ok a) :
    ∃ a1 a2,
      (generate_answer qa env store chat_id question).2.1.records =
        store.records ++
          [⟨store.records.length, chat_id, question.question, a1, none,
            qa.prompt_to_use_id env, store.records.length⟩]
      ∧ (generate_answer qa env (generate_answer qa env store chat_id question).2.1
          chat_id question).2.1.records =
        store.records ++
          [⟨store.records.length, chat_id, question.question, a1, none,
            qa.prompt_to_use_id env, store.records.length⟩,
           ⟨store.records.length + 1, chat_id, question.question, a2, none,
            qa.prompt_to_use_id env, store.records.length + 1⟩]
      ∧ (⟨store.records.length, chat_id, question.question, a1, none,
            qa.prompt_to_use_id env, store.records.length⟩ : Record).user_message =
          question.question
      ∧ (⟨store.records.length, chat_id, question.question, a1, none,
            qa.prompt_to_use_id env, store.records.length⟩ : Record).message_id ≠
          (⟨store.records.length + 1, chat_id, question.question, a2, none,
            qa.prompt_to_use_id env, store.records.length + 1⟩ : Record).message_id := by
  obtain ⟨a1, h1⟩ := hp (answer_cfg qa) (qa_messages qa env store bid question)
  have g1 := generate_answer_ok qa env store chat_id question bid a1 hb h1
  obtain ⟨a2, h2⟩ := hp (answer_cfg qa)
    (qa_messages qa env
      ⟨store.records ++
        [⟨store.records.length, chat_id, question.question, a1, none,
          qa.prompt_to_use_id env, store.records.length⟩]⟩ bid question)
  have g2 := generate_answer_ok qa env
    ⟨store.records ++
      [⟨store.records.length, chat_id, question.question, a1, none,
        qa.prompt_to_use_id env, store.records.length⟩]⟩ chat_id question bid a2 hb h2
  refine ⟨a1, a2, ?_, ?_, rfl, by simp⟩
  · rw [g1]
  · rw [g1, g2]
    simp

/-- Witness for C9 at a concrete input: the empty store and a provider
that always answers "four". -/
theorem C9_one_record_per_call_witness :
    ∃ a1 a2,
      (generate_answer qa0 envNoOv store0 "chat-1" q0).2.1.records =
        store0.records ++
          [⟨store0.records.length, "chat-1", q0.question, a1, none,
            qa0.prompt_to_use_id envNoOv, store0.records.length⟩]
      ∧ (generate_answer qa0 envNoOv (generate_answer qa0 envNoOv store0 "chat-1" q0).2.1
          "chat-1" q0).2.1.records =
        store0.records ++
          [⟨store0.records.length, "chat-1", q0.question, a1, none,
            qa0.prompt_to_use_id envNoOv, store0.records.length⟩,
           ⟨store0.records.length + 1, "chat-1", q0.question, a2, none,
            qa0.prompt_to_use_id envNoOv, store0.records.length + 1⟩]
      ∧ (⟨store0.records.length, "chat-1", q0.question, a1, none,
            qa0.prompt_to_use_id envNoOv, store0.records.length⟩ : Record).user_message =
          q0.question
      ∧ (⟨store0.records.length, "chat-1", q0.question, a1, none,
            qa0.prompt_to_use_id envNoOv, store0.records.length⟩ : Record).message_id ≠
          (⟨store0.records.length + 1, "chat-1", q0.question, a2, none,
            qa0.prompt_to_use_id envNoOv, store0.records.length + 1⟩ : Record).message_id :=
  C9_one_record_per_call qa0 envNoOv store0 "chat-1" q0 "b1" rfl
    (fun _ _ => ⟨"four", rfl⟩)

/-- Claim C10: chat-id source consistency.  Both methods fetch the prior
turns with the orchestrator's configured `self.chat_id` field, while the
new record is persisted under the `chat_id` method argument; when the two
values agree, the history read and the written record refer to the same
chat (the new record shows up in a re-read under `self.chat_id`), and when
they differ they refer to different chats (it does not). -/
theorem C10_chat_id_source (qa : HeadlessQA) (env : Env) (store : Store)
    (chat_id : String) (question : ChatQuestion) (bid : String)
    (hb : qa.brain_id = some bid)
    (hp : ∀ cfg msgs, ∃ a, env.predict cfg msgs = Except.ok a) :
    Event.getChatHistory qa.chat_id ∈ (generate_answer qa env store chat_id question).2.2
    ∧ Event.getChatHistory qa.chat_id ∈ (generate_stream qa env store chat_id question).2
    ∧ ∃ r, (generate_answer qa env store chat_id question).2.1.records = store.records ++ [r]
        ∧ r.chat_id = chat_id
        ∧ (qa.chat_id = some chat_id →
            r ∈ get_chat_history (generate_answer qa env store chat_id question).2.1 qa.chat_id)
        ∧ (qa.chat_id ≠ some chat_id →
            r ∉ get_chat_history (generate_answer qa env store chat_id question).2.1 qa.chat_id) := by
  obtain ⟨a1, h1⟩ := hp (answer_cfg qa) (qa_messages qa env store bid question)
  have g1 := generate_answer_ok qa env store chat_id question bid a1 hb h1
  refine ⟨?_, ?_, ?_⟩
  · rw [g1]
    simp
  · rw [generate_stream_eq qa env store chat_id question bid hb]
    simp
  · rw [g1]
    refine ⟨_, rfl, rfl, ?_, ?_⟩
    · intro h
      exact List.mem_filter.mpr
        ⟨List.mem_append_right _ (List.mem_singleton.mpr rfl), by simp [h]⟩
    · intro h hmem
      have hpred := (List.mem_filter.mp hmem).2
      simp only [beq_iff_eq] at hpred
      exact h hpred.symm

/-- Witness for C10 at a concrete input where the configured `chat_id`
field (`some "chat-1"`) differs from the `chat_id` argument
("other-chat"): the read and the write refer to different chats. -/
theorem C10_chat_id_source_witness :
    Event.getChatHistory qa0.chat_id ∈ (generate_answer qa0 envNoOv store0 "other-chat" q0).2.2
    ∧ Event.getChatHistory qa0.chat_id ∈ (generate_stream qa0 envNoOv store0 "other-chat" q0).2
    ∧ ∃ r, (generate_answer qa0 envNoOv store0 "other-chat" q0).2.1.records =
          store0.records ++ [r]
        ∧ r.chat_id = "other-chat"
        ∧ (qa0.chat_id = some "other-chat" →
            r ∈ get_chat_history (generate_answer qa0 envNoOv store0 "other-chat" q0).2.1
              qa0.chat_id)
        ∧ (qa0.chat_id ≠ some "other-chat" →
            r ∉ get_chat_history (generate_answer qa0 envNoOv store0 "other-chat" q0).2.1
              qa0.chat_id) :=
  C10_chat_id_source qa0 envNoOv store0 "other-chat" q0 "b1" rfl (fun _ _ => ⟨"four", rfl⟩)

end QAHeadless
